import Mathlib

/-!
Verification of the core model of GeoProdViz2D (src/scripts/main.js).

The development shallowly embeds the 2D geometric-algebra vector layer
(class Vector2, class GeometricProduct, the norm functions), the
undo/redo history machine of class VectorVisualizer (fields state,
undoHistory, redoHistory, lastSavedState and the methods saveState,
undo, redo, setVectorState, setState, loadExample, toggleVisibility),
the example-state constants, and the JSON state validator
validateStateJSON, and proves the specified properties about them.

JavaScript numbers are embedded as exact ordered-field scalars: the
interactive state machine is instantiated at the rationals so that all
of its operations are executable and decidable, while the metric layer
(norm2, normalize), which uses Math.sqrt, lives over the reals.
-/

namespace GeoProdViz

section VectorAlgebra

variable {K : Type} [LinearOrderedField K]

/-- class Vector2 (main.js lines 6-57): an immutable pair of numbers. -/
structure Vector2 (K : Type) where
  x : K
  y : K
deriving DecidableEq, Repr

/-- Vector2.clone (line 12): returns a fresh pair with the same components. -/
def Vector2.clone (v : Vector2 K) : Vector2 K := ⟨v.x, v.y⟩

/-- Vector2.equals (line 16): component-wise comparison within epsilon 0.001.
The JavaScript receiver is never null, so the null guard is dropped. -/
def Vector2.equals (a b : Vector2 K) : Prop :=
  |a.x - b.x| < 1 / 1000 ∧ |a.y - b.y| < 1 / 1000

instance (a b : Vector2 ℚ) : Decidable (a.equals b) :=
  inferInstanceAs (Decidable (|a.x - b.x| < 1 / 1000 ∧ |a.y - b.y| < 1 / 1000))

/-- Vector2.scale (line 22). -/
def Vector2.scale (v : Vector2 K) (scalar : K) : Vector2 K :=
  ⟨v.x * scalar, v.y * scalar⟩

/-- Vector2.add (line 26). -/
def Vector2.add (a b : Vector2 K) : Vector2 K := ⟨a.x + b.x, a.y + b.y⟩

/-- Vector2.sub (line 30). -/
def Vector2.sub (a b : Vector2 K) : Vector2 K := ⟨a.x - b.x, a.y - b.y⟩

/-- Vector2.neg (line 34). -/
def Vector2.neg (v : Vector2 K) : Vector2 K := ⟨-v.x, -v.y⟩

/-- Vector2.dot (line 38). -/
def Vector2.dot (a b : Vector2 K) : K := a.x * b.x + a.y * b.y

/-- Vector2.wedge (line 42). -/
def Vector2.wedge (a b : Vector2 K) : K := a.x * b.y - a.y * b.x

/-- Vector2.rotate (line 46): rotation by 90 degrees counter-clockwise. -/
def Vector2.rotate (v : Vector2 K) : Vector2 K := ⟨-v.y, v.x⟩

/-- class GeometricProduct (lines 76-90): a (dot, wedge) scalar pair. -/
structure GeometricProduct (K : Type) where
  dot : K
  wedge : K
deriving DecidableEq, Repr

/-- GeometricProduct.prod_vector (line 87): applies the product to a vector,
computing vector*dot - rotate(vector)*wedge. -/
def GeometricProduct.prod_vector (gp : GeometricProduct K) (vector : Vector2 K) :
    Vector2 K :=
  (vector.scale gp.dot).sub ((vector.rotate).scale gp.wedge)

/-- Vector2.prod_vector (line 54): the geometric product of two vectors,
packaged as its scalar (dot) and bivector (wedge) parts. -/
def Vector2.prod_vector (a b : Vector2 K) : GeometricProduct K :=
  ⟨a.dot b, a.wedge b⟩

/-- norm2 (line 59): the Euclidean norm, sqrt of the self dot product. -/
noncomputable def norm2 (v : Vector2 ℝ) : ℝ := Real.sqrt (v.dot v)

/-- Vector2.normalize (line 50): scales the vector by 1 / norm2. -/
noncomputable def Vector2.normalize (v : Vector2 ℝ) : Vector2 ℝ :=
  v.scale (1.0 / norm2 v)

/-- Total rendering of normalize with the division by norm2 guarded: the
none branch is the division-by-zero failure of the unguarded source. -/
noncomputable def Vector2.normalizeChecked (v : Vector2 ℝ) : Option (Vector2 ℝ) :=
  if norm2 v = 0 then none else some (v.scale (1.0 / norm2 v))

end VectorAlgebra

section GeometricAlgebra

/-- A multivector of the 2D geometric algebra over the orthonormal basis
e1, e2, written on the basis 1, e1, e2, I with I = e1 e2. -/
structure Multivector where
  s : ℝ
  e1 : ℝ
  e2 : ℝ
  e12 : ℝ

/-- A vector viewed as a multivector with only grade-1 components. -/
def Multivector.ofVector (v : Vector2 ℝ) : Multivector := ⟨0, v.x, v.y, 0⟩

/-- The geometric product of two multivectors, by direct component expansion
over the basis products: e1 e1 = e2 e2 = 1, e1 e2 = -(e2 e1) = I,
I I = -1, e1 I = e2, I e1 = -e2, e2 I = -e1, I e2 = e1. -/
def Multivector.gmul (a b : Multivector) : Multivector :=
  ⟨a.s * b.s + a.e1 * b.e1 + a.e2 * b.e2 - a.e12 * b.e12,
   a.s * b.e1 + a.e1 * b.s - a.e2 * b.e12 + a.e12 * b.e2,
   a.s * b.e2 + a.e2 * b.s + a.e1 * b.e12 - a.e12 * b.e1,
   a.s * b.e12 + a.e12 * b.s + a.e1 * b.e2 - a.e2 * b.e1⟩

/-- The basis vector e1 as a multivector. -/
def Multivector.E1 : Multivector := ⟨0, 1, 0, 0⟩

/-- The basis vector e2 as a multivector. -/
def Multivector.E2 : Multivector := ⟨0, 0, 1, 0⟩

/-- The unit bivector I = e1 e2 as a multivector. -/
def Multivector.I : Multivector := ⟨0, 0, 0, 1⟩

/-- The multivector 1. -/
def Multivector.one : Multivector := ⟨1, 0, 0, 0⟩

end GeometricAlgebra

section StateModel

variable {K : Type} [LinearOrderedField K]

/-- class VectorState (lines 92-118): the three user-controlled vectors. -/
structure VectorState (K : Type) where
  A : Vector2 K
  B : Vector2 K
  C : Vector2 K
deriving DecidableEq, Repr

/-- The constructor defaults of VectorState (line 93). -/
def defaultVectorState : VectorState ℚ := ⟨⟨2, 1⟩, ⟨-1, 1⟩, ⟨-1, 0⟩⟩

/-- VectorState.clone (line 100): a deep copy. -/
def VectorState.clone (s : VectorState K) : VectorState K :=
  ⟨s.A.clone, s.B.clone, s.C.clone⟩

/-- VectorState.equals (line 109): component-wise epsilon equality. -/
def VectorState.equals (s other : VectorState K) : Prop :=
  s.A.equals other.A ∧ s.B.equals other.B ∧ s.C.equals other.C

instance (s t : VectorState ℚ) : Decidable (s.equals t) :=
  inferInstanceAs (Decidable (s.A.equals t.A ∧ s.B.equals t.B ∧ s.C.equals t.C))

/-- The visibility flag object created in the VectorVisualizerState
constructor (lines 123-132); its keys are the fixed set of derived
quantities a, b, c, brot, dot, wedge, prodABC, prodCAB. -/
structure Visibility where
  a : Bool
  b : Bool
  c : Bool
  brot : Bool
  dot : Bool
  wedge : Bool
  prodABC : Bool
  prodCAB : Bool
deriving DecidableEq, Repr

/-- The default visibility object (lines 123-132): every flag true. -/
def defaultVisibility : Visibility :=
  ⟨true, true, true, true, true, true, true, true⟩

/-- class VectorVisualizerState (lines 120-152): vectors plus visibility. -/
structure VectorVisualizerState (K : Type) where
  vector : VectorState K
  visibility : Visibility
deriving DecidableEq, Repr

/-- new VectorVisualizerState() with both constructor defaults. -/
def defaultVisualizerState : VectorVisualizerState ℚ :=
  ⟨defaultVectorState, defaultVisibility⟩

/-- VectorVisualizerState.clone (line 136). -/
def VectorVisualizerState.clone (s : VectorVisualizerState K) :
    VectorVisualizerState K :=
  ⟨s.vector.clone, s.visibility⟩

/-- The history-relevant mutable fields of class VectorVisualizer
(lines 162-163 and 200-204); rendering fields (scene, camera, meshes,
drag flags) are display state and are not part of the core model. -/
structure VectorVisualizer where
  state : VectorVisualizerState ℚ
  undoHistory : List (VectorState ℚ)
  redoHistory : List (VectorState ℚ)
  lastSavedState : Option (VectorState ℚ)
deriving DecidableEq, Repr

/-- maxHistorySize (line 203). -/
def maxHistorySize : Nat := 50

/-- A freshly constructed VectorVisualizer (constructor, lines 154-212):
default state, empty histories, null lastSavedState. -/
def freshVisualizer : VectorVisualizer :=
  ⟨defaultVisualizerState, [], [], none⟩

/-- The guard of saveState (line 1389): the JavaScript expression
lastSavedState?.equals(state.vector), which is falsy when
lastSavedState is null. -/
def VectorVisualizer.lastSavedMatches (m : VectorVisualizer) : Bool :=
  match m.lastSavedState with
  | none => false
  | some t => decide (t.equals m.state.vector)

/-- VectorVisualizer.saveState (lines 1388-1401): early-return when the
last saved snapshot epsilon-equals the live vector state; otherwise push
a clone of the live vector state, clear the redo stack, update the
last-saved cache, and evict the oldest undo entry past the cap. -/
def VectorVisualizer.saveState (m : VectorVisualizer) : VectorVisualizer :=
  if m.lastSavedMatches then m
  else
    let currentState := m.state.vector.clone
    let pushed := m.undoHistory ++ [currentState]
    { m with
      undoHistory := if maxHistorySize < pushed.length then pushed.tail else pushed,
      redoHistory := [],
      lastSavedState := some currentState }

/-- VectorVisualizer.setVectorState (lines 1276-1284): replaces the
current vector state (the mesh updates it triggers are display work). -/
def VectorVisualizer.setVectorState (m : VectorVisualizer)
    (vectorState : VectorState ℚ) : VectorVisualizer :=
  { m with state := { m.state with vector := vectorState } }

/-- VectorVisualizer.undo (lines 1403-1412): no-op on an empty undo
stack; otherwise push the current vector state onto the redo stack, pop
the undo stack into the current state, and point the last-saved cache at
the new top of the undo stack (or null). -/
def VectorVisualizer.undo (m : VectorVisualizer) : VectorVisualizer :=
  match m.undoHistory.getLast? with
  | none => m
  | some previousState =>
    { m with
      state := { m.state with vector := previousState },
      undoHistory := m.undoHistory.dropLast,
      redoHistory := m.redoHistory ++ [m.state.vector.clone],
      lastSavedState := m.undoHistory.dropLast.getLast? }

/-- VectorVisualizer.redo (lines 1414-1423): no-op on an empty redo
stack; otherwise cache and push the current vector state onto the undo
stack and pop the redo stack into the current state. -/
def VectorVisualizer.redo (m : VectorVisualizer) : VectorVisualizer :=
  match m.redoHistory.getLast? with
  | none => m
  | some nextState =>
    { m with
      state := { m.state with vector := nextState },
      undoHistory := m.undoHistory ++ [m.state.vector.clone],
      redoHistory := m.redoHistory.dropLast,
      lastSavedState := some m.state.vector.clone }

/-- VectorVisualizer.setState (lines 1286-1299): wholesale replacement of
the visualizer state (the visibility resync it triggers is display work). -/
def VectorVisualizer.setState (m : VectorVisualizer)
    (state : VectorVisualizerState ℚ) : VectorVisualizer :=
  { m with state := state }

/-- VectorVisualizer.loadExample (lines 1425-1430): saveState, then
wholesale setState to the example (scrollToCanvas is display work). -/
def VectorVisualizer.loadExample (m : VectorVisualizer)
    (state : VectorVisualizerState ℚ) : VectorVisualizer :=
  (m.saveState).setState state

/-- The visibility keys accepted by toggleVisibility (line 1321), i.e.
the keys of the visibility object. -/
inductive VisibilityKey where
  | a | b | c | brot | dot | wedge | prodABC | prodCAB
deriving DecidableEq, Repr

/-- Flipping one key of a visibility object (line 1323). -/
def Visibility.toggleKey (vis : Visibility) : VisibilityKey → Visibility
  | .a => { vis with a := !vis.a }
  | .b => { vis with b := !vis.b }
  | .c => { vis with c := !vis.c }
  | .brot => { vis with brot := !vis.brot }
  | .dot => { vis with dot := !vis.dot }
  | .wedge => { vis with wedge := !vis.wedge }
  | .prodABC => { vis with prodABC := !vis.prodABC }
  | .prodCAB => { vis with prodCAB := !vis.prodCAB }

/-- VectorVisualizer.toggleVisibility (lines 1321-1329): flips one
visibility flag in place; it performs no history bookkeeping (the mesh
and UI updates it triggers are display work). -/
def VectorVisualizer.toggleVisibility (m : VectorVisualizer)
    (vectorType : VisibilityKey) : VectorVisualizer :=
  { m with
    state := { m.state with
      visibility := m.state.visibility.toggleKey vectorType } }

end StateModel

section JSONModel

variable {K : Type} [LinearOrderedField K]

/-- JSON-like JavaScript values, as received by validateStateJSON after
JSON parsing: undefined, null, booleans, numbers, strings and objects. -/
inductive JValue (K : Type) where
  | jsUndefined
  | jnull
  | bool (b : Bool)
  | num (v : K)
  | str (s : String)
  | obj (fields : List (String × JValue K))

/-- JavaScript property access o[k]. On objects it looks the key up; on
every other value the modelled result is undefined. (In JavaScript,
access on null or undefined throws instead, but the only such access in
validateStateJSON is on the unguarded argument itself, and the
try/catch of lines 1473 and 1494-1497 turns that throw into the same
false verdict that undefined propagation produces.) -/
def JValue.getField : JValue K → String → JValue K
  | .obj fields, key =>
    match fields.find? (fun f => f.1 == key) with
    | some f => f.2
    | none => .jsUndefined
  | _, _ => .jsUndefined

/-- JavaScript truthiness: undefined, null, false, 0 and the empty
string are falsy, every other value is truthy. -/
def JValue.truthy : JValue K → Bool
  | .jsUndefined => false
  | .jnull => false
  | .bool b => b
  | .num v => decide (v ≠ 0)
  | .str s => decide (s ≠ "")
  | .obj _ => true

/-- The JavaScript check typeof v === 'number'. -/
def JValue.isNumber : JValue K → Bool
  | .num _ => true
  | _ => false

/-- The JavaScript check typeof v === 'boolean'. -/
def JValue.isBool : JValue K → Bool
  | .bool _ => true
  | _ => false

/-- requiredKeys of validateStateJSON (line 1488). -/
def requiredVisibilityKeys : List String :=
  ["a", "b", "c", "brot", "dot", "wedge", "prod"]

/-- VectorVisualizer.validateStateJSON (lines 1472-1498). Each early
"return false" of the source is rendered as a conjunct of a Boolean
conjunction, which has the same value. The method reads nothing from
and writes nothing to the visualizer instance. -/
def validateStateJSON (json : JValue K) : Bool :=
  let vector := json.getField "vector"
  let visibility := json.getField "visibility"
  vector.truthy && visibility.truthy
    && (vector.getField "A").truthy
    && (vector.getField "B").truthy
    && (vector.getField "C").truthy
    && ((vector.getField "A").getField "x").isNumber
    && ((vector.getField "A").getField "y").isNumber
    && ((vector.getField "B").getField "x").isNumber
    && ((vector.getField "B").getField "y").isNumber
    && ((vector.getField "C").getField "x").isNumber
    && ((vector.getField "C").getField "y").isNumber
    && requiredVisibilityKeys.all (fun key => (visibility.getField key).isBool)

/-- The effect of calling validateStateJSON on a visualizer: it returns
its verdict and, having no assignment in its body, leaves the instance
unchanged. -/
def VectorVisualizer.validateStateJSONCall (m : VectorVisualizer)
    (json : JValue ℚ) : Bool × VectorVisualizer :=
  (validateStateJSON json, m)

/-- The shape required by the specification, written from its words: a
vector field with A, B, C each carrying numeric x and y, and a
visibility field with boolean values at every key in
a, b, c, brot, dot, wedge, prod. -/
def claimStateShape (json : JValue K) : Bool :=
  (((json.getField "vector").getField "A").getField "x").isNumber
    && (((json.getField "vector").getField "A").getField "y").isNumber
    && (((json.getField "vector").getField "B").getField "x").isNumber
    && (((json.getField "vector").getField "B").getField "y").isNumber
    && (((json.getField "vector").getField "C").getField "x").isNumber
    && (((json.getField "vector").getField "C").getField "y").isNumber
    && requiredVisibilityKeys.all
      (fun key => ((json.getField "visibility").getField key).isBool)

/-- The JSON object form of a Vector2, as its fields are laid out. -/
def vectorToJSON (v : Vector2 K) : JValue K :=
  .obj [("x", .num v.x), ("y", .num v.y)]

/-- The JSON object form of a visibility object: exactly the keys the
program stores (lines 123-132), with prodABC and prodCAB and no prod. -/
def visibilityToJSON (vis : Visibility) : JValue K :=
  .obj [("a", .bool vis.a), ("b", .bool vis.b), ("c", .bool vis.c),
        ("brot", .bool vis.brot), ("dot", .bool vis.dot),
        ("wedge", .bool vis.wedge), ("prodABC", .bool vis.prodABC),
        ("prodCAB", .bool vis.prodCAB)]

/-- The JSON object form of a complete VectorVisualizerState. -/
def stateToJSON (s : VectorVisualizerState K) : JValue K :=
  .obj [("vector", .obj [("A", vectorToJSON s.vector.A),
                         ("B", vectorToJSON s.vector.B),
                         ("C", vectorToJSON s.vector.C)]),
        ("visibility", visibilityToJSON s.visibility)]

end JSONModel

section ExampleConstants

/-- DOT_PARALLEL_BASIS_EXAMPLE (lines 1542-1555). -/
def DOT_PARALLEL_BASIS_EXAMPLE : VectorVisualizerState ℚ :=
  ⟨⟨⟨1, 0⟩, ⟨1, 0⟩, ⟨0, 0⟩⟩,
   ⟨true, true, false, true, true, false, false, false⟩⟩

/-- DOT_ORTHOGONAL_BASIS_EXAMPLE (lines 1557-1570). -/
def DOT_ORTHOGONAL_BASIS_EXAMPLE : VectorVisualizerState ℚ :=
  ⟨⟨⟨1, 0⟩, ⟨0, 1⟩, ⟨0, 0⟩⟩,
   ⟨true, true, false, true, true, false, false, false⟩⟩

/-- DOT_ORTHOGONAL_EXAMPLE (lines 1572-1585). -/
def DOT_ORTHOGONAL_EXAMPLE : VectorVisualizerState ℚ :=
  ⟨⟨⟨2, 1⟩, ⟨-1, 2⟩, ⟨0, 0⟩⟩,
   ⟨true, true, false, true, true, false, false, false⟩⟩

/-- DOT_CODIRECTIONAL_EXAMPLE (lines 1587-1600). -/
def DOT_CODIRECTIONAL_EXAMPLE : VectorVisualizerState ℚ :=
  ⟨⟨⟨2, 1⟩, ⟨-3, -(3 / 2)⟩, ⟨0, 0⟩⟩,
   ⟨true, true, false, true, true, false, false, false⟩⟩

/-- DOT_SELF_EXAMPLE (lines 1602-1615). -/
def DOT_SELF_EXAMPLE : VectorVisualizerState ℚ :=
  ⟨⟨⟨2, 0⟩, ⟨2, 0⟩, ⟨0, 0⟩⟩,
   ⟨true, true, false, true, true, false, false, false⟩⟩

/-- DOT_SIGN_SWITCH_EXAMPLE (lines 1617-1630). -/
def DOT_SIGN_SWITCH_EXAMPLE : VectorVisualizerState ℚ :=
  ⟨⟨⟨2, -1⟩, ⟨1, 1⟩, ⟨0, 0⟩⟩,
   ⟨true, true, false, true, true, false, false, false⟩⟩

/-- WEDGE_PARALLEL_BASIS_EXAMPLE (lines 1632-1645). -/
def WEDGE_PARALLEL_BASIS_EXAMPLE : VectorVisualizerState ℚ :=
  ⟨⟨⟨1, 0⟩, ⟨1, 0⟩, ⟨0, 0⟩⟩,
   ⟨true, true, false, false, false, true, false, false⟩⟩

/-- WEDGE_ORTHOGONAL_BASIS_EXAMPLE (lines 1647-1660). -/
def WEDGE_ORTHOGONAL_BASIS_EXAMPLE : VectorVisualizerState ℚ :=
  ⟨⟨⟨1, 0⟩, ⟨0, 1⟩, ⟨0, 0⟩⟩,
   ⟨true, true, false, false, false, true, false, false⟩⟩

/-- WEDGE_NEGATIVE_ORTHOGONAL_BASIS_EXAMPLE (lines 1662-1675). -/
def WEDGE_NEGATIVE_ORTHOGONAL_BASIS_EXAMPLE : VectorVisualizerState ℚ :=
  ⟨⟨⟨0, 1⟩, ⟨1, 0⟩, ⟨0, 0⟩⟩,
   ⟨true, true, false, false, false, true, false, false⟩⟩

/-- WEDGE_ORTHOGONAL_EXAMPLE (lines 1677-1690). -/
def WEDGE_ORTHOGONAL_EXAMPLE : VectorVisualizerState ℚ :=
  ⟨⟨⟨2, 1⟩, ⟨-1, 2⟩, ⟨0, 0⟩⟩,
   ⟨true, true, false, false, false, true, false, false⟩⟩

/-- WEDGE_CODIRECTIONAL_EXAMPLE (lines 1692-1705). -/
def WEDGE_CODIRECTIONAL_EXAMPLE : VectorVisualizerState ℚ :=
  ⟨⟨⟨2, 1⟩, ⟨-3, -(3 / 2)⟩, ⟨0, 0⟩⟩,
   ⟨true, true, false, false, false, true, false, false⟩⟩

/-- WEDGE_SELF_EXAMPLE (lines 1707-1720). -/
def WEDGE_SELF_EXAMPLE : VectorVisualizerState ℚ :=
  ⟨⟨⟨2, 0⟩, ⟨2, 0⟩, ⟨0, 0⟩⟩,
   ⟨true, true, false, false, false, true, false, false⟩⟩

/-- WEDGE_SIGN_SWITCH_EXAMPLE (lines 1722-1735). -/
def WEDGE_SIGN_SWITCH_EXAMPLE : VectorVisualizerState ℚ :=
  ⟨⟨⟨2, -1⟩, ⟨1, 1⟩, ⟨0, 0⟩⟩,
   ⟨true, true, false, false, false, true, false, false⟩⟩

/-- GEOMETRIC_PRODUCT_EXAMPLE (lines 1737-1750): its A and B are built
with Vector2.normalize, so this constant lives over the reals. -/
noncomputable def GEOMETRIC_PRODUCT_EXAMPLE : VectorVisualizerState ℝ :=
  ⟨⟨Vector2.normalize ⟨5, 1⟩, Vector2.normalize ⟨2, -1⟩, ⟨1, 1⟩⟩,
   ⟨true, true, true, false, false, false, true, true⟩⟩

end ExampleConstants

section Scenarios

/-- A vector state used as the target of a concrete mutation. -/
def mutatedVectorState : VectorState ℚ := ⟨⟨5, 5⟩, ⟨0, 0⟩, ⟨0, 0⟩⟩

/-- A visualizer whose redo stack is non-empty and whose last-saved
cache epsilon-equals the live vector state, as left behind by a
drag gesture whose saveState was coalesced away. Its last-saved cache
agrees with the top of its undo stack. -/
def staleSaveVisualizer : VectorVisualizer :=
  ⟨defaultVisualizerState, [defaultVectorState], [mutatedVectorState],
   some defaultVectorState⟩

/-- A fresh visualizer whose C vector was changed to (5, 5). -/
def priorCVisualizer : VectorVisualizer :=
  ⟨⟨⟨⟨2, 1⟩, ⟨-1, 1⟩, ⟨5, 5⟩⟩, defaultVisibility⟩, [], [], none⟩

/-- The i-th of a family of pairwise epsilon-distinct vector states. -/
def mkPushState (i : Nat) : VectorState ℚ := ⟨⟨i, 0⟩, ⟨0, 0⟩, ⟨0, 0⟩⟩

/-- Driving a list of vector states through the visualizer: each state
is installed as the live state and then saveState is invoked, which
pushes it, exactly as a discrete user action does at its start. -/
def pushStates (states : List (VectorState ℚ)) (m : VectorVisualizer) :
    VectorVisualizer :=
  states.foldl (fun acc s => (acc.setVectorState s).saveState) m

/-- Sixty pairwise epsilon-distinct vector states. -/
def sixtyStates : List (VectorState ℚ) := (List.range 60).map mkPushState

end Scenarios

section AlgebraTheorems

/-- The basis relation e1 e1 = 1 holds in the component-expansion product. -/
theorem gmul_E1_E1 : Multivector.E1.gmul Multivector.E1 = Multivector.one := by
  simp [Multivector.gmul, Multivector.E1, Multivector.one]

/-- The basis relation e2 e2 = 1 holds in the component-expansion product. -/
theorem gmul_E2_E2 : Multivector.E2.gmul Multivector.E2 = Multivector.one := by
  simp [Multivector.gmul, Multivector.E2, Multivector.one]

/-- The basis relation e1 e2 = I holds in the component-expansion product. -/
theorem gmul_E1_E2 : Multivector.E1.gmul Multivector.E2 = Multivector.I := by
  simp [Multivector.gmul, Multivector.E1, Multivector.E2, Multivector.I]

/-- The basis relation e2 e1 = -I holds in the component-expansion product. -/
theorem gmul_E2_E1 :
    Multivector.E2.gmul Multivector.E1 = ⟨0, 0, 0, -1⟩ := by
  simp [Multivector.gmul, Multivector.E2, Multivector.E1]

/-- The component-expansion product is associative, so it is the honest
geometric product of the 2D algebra. -/
theorem gmul_assoc (a b c : Multivector) :
    (a.gmul b).gmul c = a.gmul (b.gmul c) := by
  simp only [Multivector.gmul, Multivector.mk.injEq]
  refine ⟨by ring, by ring, by ring, by ring⟩

end AlgebraTheorems

section ClaimTheoremsAlgebra

/-- C1: for all vectors a, b, c, the triple product computed as
prod_vector(a, b) applied to c via GeometricProduct.prod_vector equals
the 2D geometric-algebra product (a b) c obtained by direct component
expansion over the orthonormal basis e1, e2 with I = e1 e2, namely the
vector ((a.dot b) c.x + (a.wedge b) c.y, (a.dot b) c.y - (a.wedge b) c.x). -/
theorem claim_C1 (a b c : Vector2 ℝ) :
    (a.prod_vector b).prod_vector c
      = ⟨(a.dot b) * c.x + (a.wedge b) * c.y,
         (a.dot b) * c.y - (a.wedge b) * c.x⟩
    ∧ Multivector.ofVector ((a.prod_vector b).prod_vector c)
      = ((Multivector.ofVector a).gmul (Multivector.ofVector b)).gmul
          (Multivector.ofVector c) := by
  constructor
  · simp only [Vector2.prod_vector, GeometricProduct.prod_vector,
      Vector2.scale, Vector2.rotate, Vector2.sub, Vector2.dot, Vector2.wedge,
      Vector2.mk.injEq]
    exact ⟨by ring, by ring⟩
  · simp only [Vector2.prod_vector, GeometricProduct.prod_vector,
      Vector2.scale, Vector2.rotate, Vector2.sub, Vector2.dot, Vector2.wedge,
      Multivector.ofVector, Multivector.gmul, Multivector.mk.injEq]
    refine ⟨by ring, by ring, by ring, by ring⟩

/-- C10: for all vectors a and b, dot(a, b) equals wedge(a, rotate(b)),
where rotate is the 90 degree counter-clockwise rotation (-y, x). -/
theorem claim_C10 (a b : Vector2 ℝ) : a.dot b = a.wedge b.rotate := by
  simp only [Vector2.dot, Vector2.wedge, Vector2.rotate]
  ring

/-- C7: normalize(v) equals scale(v, 1/norm2(v)); the division by
norm2(v) fails exactly when v is the zero vector, i.e. in a total
embedding with guarded division the error branch of normalize is
reachable if and only if v = (0, 0). -/
theorem claim_C7 (v : Vector2 ℝ) :
    v.normalize = v.scale (1.0 / norm2 v)
    ∧ (norm2 v = 0 ↔ v = ⟨0, 0⟩)
    ∧ (v.normalizeChecked = none ↔ v = ⟨0, 0⟩) := by
  have hiff : norm2 v = 0 ↔ v = (⟨0, 0⟩ : Vector2 ℝ) := by
    unfold norm2 Vector2.dot
    rw [Real.sqrt_eq_zero']
    constructor
    · intro h
      have hx : v.x = 0 := by nlinarith [mul_self_nonneg v.x, mul_self_nonneg v.y]
      have hy : v.y = 0 := by nlinarith [mul_self_nonneg v.x, mul_self_nonneg v.y]
      cases v
      simp_all
    · rintro rfl
      norm_num
  refine ⟨rfl, hiff, ?_⟩
  by_cases hc : norm2 v = 0
  · unfold Vector2.normalizeChecked
    rw [if_pos hc]
    simpa using hiff.mp hc
  · simp only [Vector2.normalizeChecked, hc, if_false]
    simp only [reduceCtorEq, false_iff]
    exact fun h => hc (hiff.mpr h)

end ClaimTheoremsAlgebra

section StateModelLemmas

/-- Cloning a vector state is the identity in the value semantics. -/
theorem VectorState.clone_eq (s : VectorState ℚ) : s.clone = s := rfl

/-- Epsilon equality of vectors is reflexive. -/
theorem vecEquals_refl {K : Type} [LinearOrderedField K] (v : Vector2 K) :
    v.equals v := by
  constructor <;> simp [Vector2.equals]

/-- The saveState guard when the last-saved cache is null. -/
theorem lastSavedMatches_none (m : VectorVisualizer)
    (h : m.lastSavedState = none) : m.lastSavedMatches = false := by
  unfold VectorVisualizer.lastSavedMatches
  rw [h]

/-- The saveState guard when the last-saved cache holds a snapshot. -/
theorem lastSavedMatches_some (m : VectorVisualizer) (t : VectorState ℚ)
    (h : m.lastSavedState = some t) :
    m.lastSavedMatches = decide (t.equals m.state.vector) := by
  unfold VectorVisualizer.lastSavedMatches
  rw [h]

/-- Epsilon equality of vector states is reflexive. -/
theorem vstateEquals_refl {K : Type} [LinearOrderedField K]
    (s : VectorState K) : s.equals s :=
  ⟨vecEquals_refl s.A, vecEquals_refl s.B, vecEquals_refl s.C⟩

/-- saveState when the guard matches: the call is a no-op. -/
theorem saveState_of_matches (m : VectorVisualizer)
    (h : m.lastSavedMatches = true) : m.saveState = m := by
  unfold VectorVisualizer.saveState
  rw [if_pos h]

/-- saveState when the guard does not match: push, clear redo, cache,
evict past the cap. -/
theorem saveState_of_not_matches (m : VectorVisualizer)
    (h : m.lastSavedMatches = false) :
    m.saveState = { m with
      undoHistory :=
        if maxHistorySize < (m.undoHistory ++ [m.state.vector]).length
        then (m.undoHistory ++ [m.state.vector]).tail
        else m.undoHistory ++ [m.state.vector],
      redoHistory := [],
      lastSavedState := some m.state.vector } := by
  unfold VectorVisualizer.saveState
  rw [if_neg (by simp [h])]
  rfl

/-- undo on an empty undo stack is a no-op. -/
theorem undo_of_none (m : VectorVisualizer)
    (h : m.undoHistory.getLast? = none) : m.undo = m := by
  unfold VectorVisualizer.undo
  rw [h]

/-- undo on a non-empty undo stack, written out. -/
theorem undo_of_getLast (m : VectorVisualizer) (p : VectorState ℚ)
    (h : m.undoHistory.getLast? = some p) :
    m.undo = { m with
      state := { m.state with vector := p },
      undoHistory := m.undoHistory.dropLast,
      redoHistory := m.redoHistory ++ [m.state.vector],
      lastSavedState := m.undoHistory.dropLast.getLast? } := by
  unfold VectorVisualizer.undo
  rw [h]
  rfl

/-- redo on an empty redo stack is a no-op. -/
theorem redo_of_none (m : VectorVisualizer)
    (h : m.redoHistory.getLast? = none) : m.redo = m := by
  unfold VectorVisualizer.redo
  rw [h]

/-- redo on a non-empty redo stack, written out. -/
theorem redo_of_getLast (m : VectorVisualizer) (n : VectorState ℚ)
    (h : m.redoHistory.getLast? = some n) :
    m.redo = { m with
      state := { m.state with vector := n },
      undoHistory := m.undoHistory ++ [m.state.vector],
      redoHistory := m.redoHistory.dropLast,
      lastSavedState := some m.state.vector } := by
  unfold VectorVisualizer.redo
  rw [h]
  rfl

/-- The stack produced by a saveState push always has the pushed state
on top, whether or not the oldest entry was evicted. -/
theorem getLast_of_pushCapped (u : List (VectorState ℚ)) (c : VectorState ℚ) :
    (if maxHistorySize < (u ++ [c]).length
     then (u ++ [c]).tail else (u ++ [c])).getLast? = some c := by
  split
  · next hlen =>
    cases u with
    | nil => exact absurd hlen (by simp [maxHistorySize])
    | cons x xs => simp [List.getLast?_concat]
  · exact List.getLast?_concat _

/-- After any saveState call, the live vector state is on top of the
undo stack: either it was just pushed, or the guard matched and the top
already epsilon-equals it (using the last-saved cache invariant). -/
theorem saveState_getLast (m : VectorVisualizer)
    (hinv : m.lastSavedState = m.undoHistory.getLast?) :
    ∃ t, (m.saveState).undoHistory.getLast? = some t
      ∧ t.equals m.state.vector := by
  by_cases hm : m.lastSavedMatches = true
  · cases hls : m.lastSavedState with
    | none => rw [lastSavedMatches_none m hls] at hm; exact absurd hm (by simp)
    | some t =>
      have heq : t.equals m.state.vector := by
        have hm2 := hm
        rw [lastSavedMatches_some m t hls] at hm2
        exact of_decide_eq_true hm2
      refine ⟨t, ?_, heq⟩
      rw [saveState_of_matches m hm, ← hinv, hls]
  · refine ⟨m.state.vector, ?_, vstateEquals_refl _⟩
    rw [saveState_of_not_matches m (by simpa using hm)]
    exact getLast_of_pushCapped m.undoHistory m.state.vector

/-- Popping the top with undo and then redoing restores exactly the
state from before the undo, and undo installs the popped top. -/
theorem undo_redo_roundtrip (m : VectorVisualizer) (p : VectorState ℚ)
    (h : m.undoHistory.getLast? = some p) :
    (m.undo).state.vector = p
    ∧ ((m.undo).redo).state.vector = m.state.vector := by
  rw [undo_of_getLast m p h]
  refine ⟨rfl, ?_⟩
  rw [redo_of_getLast _ m.state.vector (List.getLast?_concat _)]

/-- The last-saved cache always points at the top of the undo stack:
the invariant holds initially and is preserved by every operation. -/
theorem lastSaved_cache_invariant :
    (freshVisualizer.lastSavedState = freshVisualizer.undoHistory.getLast?)
    ∧ ∀ m : VectorVisualizer,
        m.lastSavedState = m.undoHistory.getLast? →
        ∀ (v : VectorState ℚ) (s : VectorVisualizerState ℚ) (k : VisibilityKey),
          (m.saveState).lastSavedState = (m.saveState).undoHistory.getLast?
          ∧ (m.undo).lastSavedState = (m.undo).undoHistory.getLast?
          ∧ (m.redo).lastSavedState = (m.redo).undoHistory.getLast?
          ∧ (m.setVectorState v).lastSavedState
              = (m.setVectorState v).undoHistory.getLast?
          ∧ (m.setState s).lastSavedState = (m.setState s).undoHistory.getLast?
          ∧ (m.loadExample s).lastSavedState
              = (m.loadExample s).undoHistory.getLast?
          ∧ (m.toggleVisibility k).lastSavedState
              = (m.toggleVisibility k).undoHistory.getLast? := by
  refine ⟨rfl, fun m hinv v s k => ?_⟩
  have hsave : (m.saveState).lastSavedState = (m.saveState).undoHistory.getLast? := by
    by_cases hm : m.lastSavedMatches = true
    · rw [saveState_of_matches m hm]; exact hinv
    · rw [saveState_of_not_matches m (by simpa using hm)]
      exact (getLast_of_pushCapped m.undoHistory m.state.vector).symm
  refine ⟨hsave, ?_, ?_, hinv, hinv, ?_, hinv⟩
  · unfold VectorVisualizer.undo
    cases m.undoHistory.getLast? <;> simp [hinv]
  · unfold VectorVisualizer.redo
    cases m.redoHistory.getLast? with
    | none => exact hinv
    | some n => exact (List.getLast?_concat _).symm
  · unfold VectorVisualizer.loadExample VectorVisualizer.setState
    exact hsave

end StateModelLemmas

section ClaimTheoremsHistory

/-- C2: from any visualizer whose last-saved cache agrees with the top
of its undo stack (the invariant every reachable state satisfies), if a
mutating action calls saveState and then mutates the vector state from
S0 to an epsilon-different S1, undo() brings the current vector state
back to S0 within epsilon 0.001 per component, and a subsequent redo()
brings it back to exactly S1. -/
theorem claim_C2 (m : VectorVisualizer) (S1 : VectorState ℚ)
    (hinv : m.lastSavedState = m.undoHistory.getLast?)
    (hdiff : ¬ S1.equals m.state.vector) :
    (((m.saveState).setVectorState S1).undo).state.vector.equals m.state.vector
    ∧ ((((m.saveState).setVectorState S1).undo).redo).state.vector = S1 := by
  obtain ⟨t, hget, heq⟩ := saveState_getLast m hinv
  have hget2 : ((m.saveState).setVectorState S1).undoHistory.getLast? = some t := hget
  obtain ⟨h1, h2⟩ := undo_redo_roundtrip ((m.saveState).setVectorState S1) t hget2
  refine ⟨?_, ?_⟩
  · rw [h1]
    exact heq
  · exact h2

set_option maxRecDepth 10000 in
unseal Rat.add Rat.sub Rat.mul Rat.inv in
/-- C3 counterexample: a visualizer whose redo stack is non-empty and
whose last-saved cache epsilon-equals the live vector state (and agrees
with the top of the undo stack, as the cache invariant requires); the
saveState call that begins any new mutating action returns early and
does not clear the redo stack. -/
theorem claim_C3_counterexample :
    (staleSaveVisualizer.saveState).redoHistory ≠ []
    ∧ staleSaveVisualizer.lastSavedState
        = staleSaveVisualizer.undoHistory.getLast? := by
  decide

/-- C3 amended: a new state-mutating action begins with saveState, and
that call clears the redo stack exactly when the last-saved snapshot is
absent or epsilon-differs from the live vector state; when the guard
matches, saveState returns early and leaves the redo stack untouched. -/
theorem claim_C3_amended (m : VectorVisualizer) (ex : VectorVisualizerState ℚ) :
    (m.saveState).redoHistory
        = (if m.lastSavedMatches then m.redoHistory else [])
    ∧ (m.loadExample ex).redoHistory
        = (if m.lastSavedMatches then m.redoHistory else []) := by
  have h : (m.saveState).redoHistory
      = (if m.lastSavedMatches then m.redoHistory else []) := by
    by_cases hm : m.lastSavedMatches = true
    · rw [saveState_of_matches m hm, if_pos hm]
    · rw [saveState_of_not_matches m (by simpa using hm), if_neg hm]
  exact ⟨h, h⟩

set_option maxRecDepth 10000 in
unseal Rat.add Rat.sub Rat.mul Rat.inv in
/-- C4 counterexample: loading the orthogonal-basis dot example from a
state whose C is (5, 5) does not leave C unchanged; C becomes the
example constant value (0, 0). -/
theorem claim_C4_counterexample :
    priorCVisualizer.state.vector.C = ⟨5, 5⟩
    ∧ (priorCVisualizer.loadExample DOT_ORTHOGONAL_BASIS_EXAMPLE).state.vector.C
        = ⟨0, 0⟩
    ∧ (priorCVisualizer.loadExample DOT_ORTHOGONAL_BASIS_EXAMPLE).state.vector.C
        ≠ priorCVisualizer.state.vector.C := by
  decide

/-- C4 amended: loading the orthogonal-basis dot example from any
current state sets A = (1, 0), B = (0, 1) and C = (0, 0) (the state is
replaced wholesale, so C takes the example value rather than staying
unchanged), and the visibility flags become exactly a, b, brot, dot
true and c, wedge, prodABC, prodCAB false. -/
theorem claim_C4 (m : VectorVisualizer) :
    (m.loadExample DOT_ORTHOGONAL_BASIS_EXAMPLE).state.vector
        = ⟨⟨1, 0⟩, ⟨0, 1⟩, ⟨0, 0⟩⟩
    ∧ (m.loadExample DOT_ORTHOGONAL_BASIS_EXAMPLE).state.visibility
        = ⟨true, true, false, true, true, false, false, false⟩ :=
  ⟨rfl, rfl⟩

set_option maxRecDepth 10000 in
unseal Rat.add Rat.sub Rat.mul Rat.inv in
/-- C5 counterexample: after a vector mutation (with its saveState) and
then a visibility toggle of key a, undo() pops the vector snapshot but
leaves the visibility flags as toggled, so the flags are not restored
to their pre-toggle values. -/
theorem claim_C5_counterexample :
    freshVisualizer.state.visibility.a = true
    ∧ ((((freshVisualizer.saveState).setVectorState
          mutatedVectorState).toggleVisibility VisibilityKey.a).undo).state.visibility.a
        = false
    ∧ ((((freshVisualizer.saveState).setVectorState
          mutatedVectorState).toggleVisibility VisibilityKey.a).undo).state.vector
        = defaultVectorState := by
  decide

/-- C5 amended: the unit of undo/redo history is the VectorState alone:
undo() and redo() change only the vector part of the visualizer state
and leave the visibility flags unchanged, and a visibility toggle
touches no history structure and no vectors. -/
theorem claim_C5_amended (m : VectorVisualizer) (k : VisibilityKey) :
    (m.undo).state.visibility = m.state.visibility
    ∧ (m.redo).state.visibility = m.state.visibility
    ∧ (m.toggleVisibility k).undoHistory = m.undoHistory
    ∧ (m.toggleVisibility k).redoHistory = m.redoHistory
    ∧ (m.toggleVisibility k).lastSavedState = m.lastSavedState
    ∧ (m.toggleVisibility k).state.vector = m.state.vector := by
  refine ⟨?_, ?_, rfl, rfl, rfl, rfl⟩
  · unfold VectorVisualizer.undo
    cases m.undoHistory.getLast? <;> rfl
  · unfold VectorVisualizer.redo
    cases m.redoHistory.getLast? <;> rfl

set_option maxRecDepth 10000 in
unseal Rat.add Rat.sub Rat.mul Rat.inv in
/-- C6: pushing sixty pairwise epsilon-distinct vector states through
saveState onto a fresh history leaves exactly fifty undo entries, the
ten oldest evicted first; and every operation preserves the bound of
fifty on the undo stack (via the invariant that the undo and redo
lengths sum to at most fifty). -/
theorem claim_C6 :
    ((pushStates sixtyStates freshVisualizer).undoHistory
        = (List.range 50).map (fun i => mkPushState (i + 10))
      ∧ (pushStates sixtyStates freshVisualizer).undoHistory.length = 50)
    ∧ ∀ m : VectorVisualizer,
        m.undoHistory.length + m.redoHistory.length ≤ maxHistorySize →
        ((m.saveState).undoHistory.length
            + (m.saveState).redoHistory.length ≤ maxHistorySize
          ∧ (m.saveState).undoHistory.length ≤ maxHistorySize
          ∧ (m.undo).undoHistory.length
            + (m.undo).redoHistory.length ≤ maxHistorySize
          ∧ (m.undo).undoHistory.length ≤ maxHistorySize
          ∧ (m.redo).undoHistory.length
            + (m.redo).redoHistory.length ≤ maxHistorySize
          ∧ (m.redo).undoHistory.length ≤ maxHistorySize) := by
  constructor
  · constructor
    · decide
    · decide
  · intro m h
    have hsave : (m.saveState).undoHistory.length
        + (m.saveState).redoHistory.length ≤ maxHistorySize := by
      by_cases hm : m.lastSavedMatches = true
      · rw [saveState_of_matches m hm]; exact h
      · rw [saveState_of_not_matches m (by simpa using hm)]
        simp only [List.length_nil, Nat.add_zero]
        split
        · next hlen =>
          simp only [List.length_tail, List.length_append, List.length_cons,
            List.length_nil] at *
          omega
        · next hlen =>
          simp only [List.length_append, List.length_cons, List.length_nil] at *
          omega
    have hundo : (m.undo).undoHistory.length
        + (m.undo).redoHistory.length ≤ maxHistorySize := by
      cases hg : m.undoHistory.getLast? with
      | none => unfold VectorVisualizer.undo; rw [hg]; exact h
      | some p =>
        rw [undo_of_getLast m p hg]
        have hne : m.undoHistory ≠ [] := by
          intro hnil; rw [hnil] at hg; simp at hg
        have hpos : 0 < m.undoHistory.length := List.length_pos.mpr hne
        simp only [List.length_dropLast, List.length_append, List.length_cons,
          List.length_nil]
        omega
    have hredo : (m.redo).undoHistory.length
        + (m.redo).redoHistory.length ≤ maxHistorySize := by
      cases hg : m.redoHistory.getLast? with
      | none => unfold VectorVisualizer.redo; rw [hg]; exact h
      | some n =>
        rw [redo_of_getLast m n hg]
        have hne : m.redoHistory ≠ [] := by
          intro hnil; rw [hnil] at hg; simp at hg
        have hpos : 0 < m.redoHistory.length := List.length_pos.mpr hne
        simp only [List.length_dropLast, List.length_append, List.length_cons,
          List.length_nil]
        omega
    exact ⟨hsave, by omega, hundo, by omega, hredo, by omega⟩

set_option maxRecDepth 10000 in
unseal Rat.add Rat.sub Rat.mul Rat.inv in
/-- Witness for C2: the fresh visualizer, mutated to a concrete
epsilon-distinct state, with its hypotheses discharged by computation. -/
theorem claim_C2_witness :
    (freshVisualizer.lastSavedState = freshVisualizer.undoHistory.getLast?
      ∧ ¬ mutatedVectorState.equals freshVisualizer.state.vector)
    ∧ ((((freshVisualizer.saveState).setVectorState
          mutatedVectorState).undo).state.vector.equals freshVisualizer.state.vector
      ∧ ((((freshVisualizer.saveState).setVectorState
          mutatedVectorState).undo).redo).state.vector = mutatedVectorState) :=
  ⟨⟨rfl, by decide⟩,
   claim_C2 freshVisualizer mutatedVectorState rfl (by decide)⟩

/-- Witness for C6: the length invariant applied at the fresh
visualizer, whose stacks are empty. -/
theorem claim_C6_witness :
    (freshVisualizer.undoHistory.length
        + freshVisualizer.redoHistory.length ≤ maxHistorySize)
    ∧ ((freshVisualizer.saveState).undoHistory.length
          + (freshVisualizer.saveState).redoHistory.length ≤ maxHistorySize
        ∧ (freshVisualizer.saveState).undoHistory.length ≤ maxHistorySize
        ∧ (freshVisualizer.undo).undoHistory.length
          + (freshVisualizer.undo).redoHistory.length ≤ maxHistorySize
        ∧ (freshVisualizer.undo).undoHistory.length ≤ maxHistorySize
        ∧ (freshVisualizer.redo).undoHistory.length
          + (freshVisualizer.redo).redoHistory.length ≤ maxHistorySize
        ∧ (freshVisualizer.redo).undoHistory.length ≤ maxHistorySize) :=
  ⟨by decide, claim_C6.2 freshVisualizer (by decide)⟩

end ClaimTheoremsHistory

section JSONLemmas

/-- A value whose truthiness holds is not undefined. -/
theorem ne_undefined_of_truthy {K : Type} [LinearOrderedField K] (v : JValue K)
    (h : v.truthy = true) : v ≠ JValue.jsUndefined := by
  cases v <;> simp_all [JValue.truthy]

/-- A value passing the number check is not undefined. -/
theorem ne_undefined_of_isNumber {K : Type} [LinearOrderedField K] (v : JValue K)
    (h : v.isNumber = true) : v ≠ JValue.jsUndefined := by
  cases v <;> simp_all [JValue.isNumber]

/-- A value passing the boolean check is not undefined. -/
theorem ne_undefined_of_isBool {K : Type} [LinearOrderedField K] (v : JValue K)
    (h : v.isBool = true) : v ≠ JValue.jsUndefined := by
  cases v <;> simp_all [JValue.isBool]

/-- Only objects have a defined field, and objects are truthy; so a
defined field forces truthiness of the parent. -/
theorem truthy_of_getField_ne_jsUndefined {K : Type} [LinearOrderedField K]
    (v : JValue K) (k : String) (h : v.getField k ≠ JValue.jsUndefined) :
    v.truthy = true := by
  cases v <;> simp_all [JValue.getField, JValue.truthy]

end JSONLemmas

section ClaimTheoremsJSON

/-- C8: validateStateJSON returns true exactly when the input has a
vector field with A, B, C each carrying numeric x and y and a
visibility field with boolean values at every key in a, b, c, brot,
dot, wedge, prod; it is a total Boolean function, so malformed input
yields false rather than an escaping exception, and calling it returns
the verdict while leaving the visualizer unchanged. -/
theorem claim_C8 (j : JValue ℚ) (m : VectorVisualizer) :
    (validateStateJSON j = true ↔ claimStateShape j = true)
    ∧ m.validateStateJSONCall j = (validateStateJSON j, m) := by
  refine ⟨?_, rfl⟩
  constructor
  · intro h
    simp only [validateStateJSON, Bool.and_eq_true] at h
    simp only [claimStateShape, Bool.and_eq_true]
    tauto
  · intro h
    simp only [claimStateShape, Bool.and_eq_true, and_assoc] at h
    obtain ⟨hAx, hAy, hBx, hBy, hCx, hCy, hall⟩ := h
    have hA : ((j.getField "vector").getField "A").truthy = true :=
      truthy_of_getField_ne_jsUndefined _ "x" (ne_undefined_of_isNumber _ hAx)
    have hB : ((j.getField "vector").getField "B").truthy = true :=
      truthy_of_getField_ne_jsUndefined _ "x" (ne_undefined_of_isNumber _ hBx)
    have hC : ((j.getField "vector").getField "C").truthy = true :=
      truthy_of_getField_ne_jsUndefined _ "x" (ne_undefined_of_isNumber _ hCx)
    have hvec : (j.getField "vector").truthy = true :=
      truthy_of_getField_ne_jsUndefined _ "A" (ne_undefined_of_truthy _ hA)
    have hvis : (j.getField "visibility").truthy = true := by
      have ha := List.all_eq_true.mp hall "a" (by simp [requiredVisibilityKeys])
      exact truthy_of_getField_ne_jsUndefined _ "a"
        (ne_undefined_of_isBool _ (by simpa using ha))
    simp only [validateStateJSON, Bool.and_eq_true, and_assoc]
    exact ⟨hvec, hvis, hA, hB, hC, hAx, hAy, hBx, hBy, hCx, hCy, hall⟩

/-- The serialized form of any program-constructed state fails the
validator: its visibility object has no prod key at all. -/
theorem validate_stateToJSON_eq_false {K : Type} [LinearOrderedField K]
    (s : VectorVisualizerState K) :
    validateStateJSON (stateToJSON s) = false
    ∧ ((stateToJSON s).getField "visibility").getField "prod" = JValue.jsUndefined :=
  ⟨rfl, rfl⟩

/-- C9: validateStateJSON returns false for every state the program
itself constructs: the serialized visibility carries the keys prodABC
and prodCAB but no boolean key named prod, which the validator
requires; this holds for every VectorVisualizerState and in particular
for the default state and each example constant. -/
theorem claim_C9 :
    (∀ (K : Type) [LinearOrderedField K] (s : VectorVisualizerState K),
        validateStateJSON (stateToJSON s) = false
        ∧ ((stateToJSON s).getField "visibility").getField "prod" = JValue.jsUndefined)
    ∧ validateStateJSON (stateToJSON defaultVisualizerState) = false
    ∧ validateStateJSON (stateToJSON DOT_PARALLEL_BASIS_EXAMPLE) = false
    ∧ validateStateJSON (stateToJSON DOT_ORTHOGONAL_BASIS_EXAMPLE) = false
    ∧ validateStateJSON (stateToJSON DOT_ORTHOGONAL_EXAMPLE) = false
    ∧ validateStateJSON (stateToJSON DOT_CODIRECTIONAL_EXAMPLE) = false
    ∧ validateStateJSON (stateToJSON DOT_SELF_EXAMPLE) = false
    ∧ validateStateJSON (stateToJSON DOT_SIGN_SWITCH_EXAMPLE) = false
    ∧ validateStateJSON (stateToJSON WEDGE_PARALLEL_BASIS_EXAMPLE) = false
    ∧ validateStateJSON (stateToJSON WEDGE_ORTHOGONAL_BASIS_EXAMPLE) = false
    ∧ validateStateJSON (stateToJSON WEDGE_NEGATIVE_ORTHOGONAL_BASIS_EXAMPLE) = false
    ∧ validateStateJSON (stateToJSON WEDGE_ORTHOGONAL_EXAMPLE) = false
    ∧ validateStateJSON (stateToJSON WEDGE_CODIRECTIONAL_EXAMPLE) = false
    ∧ validateStateJSON (stateToJSON WEDGE_SELF_EXAMPLE) = false
    ∧ validateStateJSON (stateToJSON WEDGE_SIGN_SWITCH_EXAMPLE) = false
    ∧ validateStateJSON (stateToJSON GEOMETRIC_PRODUCT_EXAMPLE) = false :=
  ⟨fun K _ s => validate_stateToJSON_eq_false s,
   (validate_stateToJSON_eq_false _).1, (validate_stateToJSON_eq_false _).1,
   (validate_stateToJSON_eq_false _).1, (validate_stateToJSON_eq_false _).1,
   (validate_stateToJSON_eq_false _).1, (validate_stateToJSON_eq_false _).1,
   (validate_stateToJSON_eq_false _).1, (validate_stateToJSON_eq_false _).1,
   (validate_stateToJSON_eq_false _).1, (validate_stateToJSON_eq_false _).1,
   (validate_stateToJSON_eq_false _).1, (validate_stateToJSON_eq_false _).1,
   (validate_stateToJSON_eq_false _).1, (validate_stateToJSON_eq_false _).1,
   (validate_stateToJSON_eq_false _).1⟩

end ClaimTheoremsJSON

end GeoProdViz
